import Mathlib

/-!
Verification of the discovery-call transcript analyzer
(`src/services/geminiService.ts` and `src/App.tsx`).

The development shallowly embeds:
  * JSON values and the behaviour of `JSON.parse` on the JSON grammar
    (object / array / string / number / boolean / null; `\uXXXX` escapes and
    exponent parts of numbers are outside the fragment exercised here and are
    rejected by the model parser);
  * the declarative `ARCHITECT_SCHEMA` and the TypeScript `AnalysisResult`
    interface as shape trees;
  * `analyzeTranscript`, with the remote `generateContent` endpoint abstracted
    as an oracle `GenRequest → NetOutcome`, and the list of issued requests
    made explicit;
  * the `App` component's state (`transcript`, `isAnalyzing`, `result`,
    `error`) together with `handleAnalyze`, both as an atomic run and as a
    small-step transition relation exposing the in-flight state;
  * the renderer fragments the specification talks about: the confidence
    percentage (`(confidence_score * 100).toFixed(0) + "%"`, numbers modelled
    as rationals) and the `LAYER_ICONS` lookup, modelled as JavaScript
    property lookup — own keys first, then the members every object literal
    inherits from `Object.prototype` — followed by the `||` fallback.
-/

namespace CloudArticular

/-- JSON values, the result type of `JSON.parse`.  Numbers are modelled as
rationals. -/
inductive Json where
  | null : Json
  | bool (b : Bool) : Json
  | num (q : ℚ) : Json
  | str (s : String) : Json
  | arr (elems : List Json) : Json
  | obj (fields : List (String × Json)) : Json

/-- First field of the given name in a JSON object, as JavaScript property
lookup on a parsed object. -/
def lookupField (n : String) : List (String × Json) → Option Json
  | [] => none
  | (k, v) :: rest => if k = n then some v else lookupField n rest

/-- The character `{` (written via its code point to keep brace characters out
of string literals). -/
def openBraceChar : Char := Char.ofNat 123

/-- The character `}`. -/
def closeBraceChar : Char := Char.ofNat 125

/-- JSON insignificant whitespace. -/
def isJsonWs (c : Char) : Bool :=
  c = ' ' || c = '\t' || c = '\n' || c = '\r'

/-- Drop leading JSON whitespace. -/
def skipWs : List Char → List Char
  | [] => []
  | c :: cs => if isJsonWs c then skipWs cs else c :: cs

/-- Parse the remainder of a JSON string literal (the opening quote already
consumed), handling the single-character escapes.  Returns the decoded string
and the rest of the input. -/
def parseStringChars : List Char → Option (String × List Char)
  | [] => none
  | c :: cs =>
    if c = '"' then some ("", cs)
    else if c = '\\' then
      match cs with
      | [] => none
      | e :: cs2 =>
        let dec : Option Char :=
          if e = '"' then some '"'
          else if e = '\\' then some '\\'
          else if e = '/' then some '/'
          else if e = 'n' then some '\n'
          else if e = 't' then some '\t'
          else if e = 'r' then some '\r'
          else if e = 'b' then some (Char.ofNat 8)
          else if e = 'f' then some (Char.ofNat 12)
          else none
        match dec with
        | some d =>
          match parseStringChars cs2 with
          | some (s, rest) => some (String.mk (d :: s.data), rest)
          | none => none
        | none => none
    else
      match parseStringChars cs with
      | some (s, rest) => some (String.mk (c :: s.data), rest)
      | none => none

/-- Numeric value of a list of decimal digits. -/
def digitsToNat (ds : List Char) : ℕ :=
  ds.foldl (fun a c => a * 10 + (c.toNat - 48)) 0

/-- Parse a JSON number (integer part and optional fraction). -/
def parseNumberChars (cs : List Char) : Option (ℚ × List Char) :=
  let (neg, cs1) :=
    match cs with
    | '-' :: r => (true, r)
    | _ => (false, cs)
  let ip := cs1.takeWhile Char.isDigit
  let cs2 := cs1.dropWhile Char.isDigit
  if ip = [] then none
  else
    let (fr, cs3) :=
      match cs2 with
      | '.' :: r => (r.takeWhile Char.isDigit, r.dropWhile Char.isDigit)
      | _ => ([], cs2)
    let mag : ℚ := (digitsToNat ip : ℚ) + (digitsToNat fr : ℚ) / ((10 : ℚ) ^ fr.length)
    some (if neg then -mag else mag, cs3)

mutual

/-- Fuel-indexed recursive-descent parser for a JSON value. -/
def parseValue : ℕ → List Char → Option (Json × List Char)
  | 0, _ => none
  | fuel + 1, cs =>
    match skipWs cs with
    | [] => none
    | c :: rest =>
      if c = openBraceChar then
        match skipWs rest with
        | [] => none
        | c2 :: rest2 =>
          if c2 = closeBraceChar then some (.obj [], rest2)
          else parseMembers fuel (c2 :: rest2) []
      else if c = '[' then
        match skipWs rest with
        | [] => none
        | c2 :: rest2 =>
          if c2 = ']' then some (.arr [], rest2)
          else parseElements fuel (c2 :: rest2) []
      else if c = '"' then
        match parseStringChars rest with
        | some (s, rest2) => some (.str s, rest2)
        | none => none
      else if c = 't' then
        match rest with
        | 'r' :: 'u' :: 'e' :: r => some (.bool true, r)
        | _ => none
      else if c = 'f' then
        match rest with
        | 'a' :: 'l' :: 's' :: 'e' :: r => some (.bool false, r)
        | _ => none
      else if c = 'n' then
        match rest with
        | 'u' :: 'l' :: 'l' :: r => some (.null, r)
        | _ => none
      else
        match parseNumberChars (c :: rest) with
        | some (q, rest2) => some (.num q, rest2)
        | none => none

/-- Parse the members of a JSON object (first member not yet consumed). -/
def parseMembers : ℕ → List Char → List (String × Json) → Option (Json × List Char)
  | 0, _, _ => none
  | fuel + 1, cs, acc =>
    match skipWs cs with
    | [] => none
    | c :: rest =>
      if c = '"' then
        match parseStringChars rest with
        | some (key, rest2) =>
          match skipWs rest2 with
          | ':' :: rest3 =>
            match parseValue fuel rest3 with
            | some (v, rest4) =>
              match skipWs rest4 with
              | [] => none
              | c5 :: rest5 =>
                if c5 = ',' then parseMembers fuel rest5 (acc ++ [(key, v)])
                else if c5 = closeBraceChar then some (.obj (acc ++ [(key, v)]), rest5)
                else none
            | none => none
          | _ => none
        | none => none
      else none

/-- Parse the elements of a JSON array (first element not yet consumed). -/
def parseElements : ℕ → List Char → List Json → Option (Json × List Char)
  | 0, _, _ => none
  | fuel + 1, cs, acc =>
    match parseValue fuel cs with
    | some (v, rest) =>
      match skipWs rest with
      | ',' :: rest2 => parseElements fuel rest2 (acc ++ [v])
      | ']' :: rest2 => some (.arr (acc ++ [v]), rest2)
      | _ => none
    | none => none

end

/-- Model of `JSON.parse`: parse a complete JSON document, rejecting trailing
input; `none` stands for a thrown `SyntaxError`. -/
def jsonParse (s : String) : Option Json :=
  match parseValue (s.data.length + 1) s.data with
  | some (j, rest) => if skipWs rest = [] then some j else none
  | none => none

/-- Node of a structured-output schema, as built from `Type.OBJECT`,
`Type.ARRAY`, `Type.STRING`, `Type.NUMBER` in `geminiService.ts`: an object
node carries its property list and its list of required property names. -/
inductive SchemaType where
  | STRING : SchemaType
  | NUMBER : SchemaType
  | ARRAY (items : SchemaType) : SchemaType
  | OBJECT (props : List (String × SchemaType)) (required : List String) : SchemaType

/-- The `ARCHITECT_SCHEMA` constant of `src/services/geminiService.ts`,
field for field. -/
def ARCHITECT_SCHEMA : SchemaType :=
  .OBJECT
    [ ("client_snapshot", .OBJECT
        [ ("organization_type", .STRING),
          ("technical_maturity_level", .STRING),
          ("top_priorities", .ARRAY .STRING),
          ("constraints", .ARRAY .STRING),
          ("risk_factors", .ARRAY .STRING),
          ("detected_pains", .ARRAY .STRING),
          ("detected_goals", .ARRAY .STRING) ]
        [ "organization_type", "technical_maturity_level", "top_priorities",
          "constraints", "risk_factors", "detected_pains", "detected_goals" ]),
      ("core_drivers", .ARRAY .STRING),
      ("top_recommendations", .ARRAY (.OBJECT
        [ ("solution_name", .STRING),
          ("architecture_layer", .STRING),
          ("business_value", .STRING),
          ("technical_reason", .STRING),
          ("transcript_reference", .STRING),
          ("confidence_score", .NUMBER),
          ("pricing_model", .STRING),
          ("estimated_monthly_cost", .STRING),
          ("cost_breakdown", .ARRAY .STRING),
          ("why_it_fits", .STRING),
          ("complementary_solutions", .ARRAY .STRING) ]
        [ "solution_name", "architecture_layer", "business_value",
          "technical_reason", "transcript_reference", "confidence_score",
          "pricing_model", "estimated_monthly_cost", "cost_breakdown",
          "why_it_fits", "complementary_solutions" ])),
      ("matched_use_cases", .ARRAY (.OBJECT
        [ ("scenario_name", .STRING),
          ("format", .STRING),
          ("situation", .STRING),
          ("problem_or_task", .STRING),
          ("action", .STRING),
          ("result", .STRING),
          ("industry_relevance", .STRING) ]
        [ "scenario_name", "format", "situation", "problem_or_task",
          "action", "result", "industry_relevance" ])),
      ("diagrams", .OBJECT
        [ ("use_case_diagram", .STRING),
          ("tech_architecture_diagram", .STRING) ]
        [ "use_case_diagram", "tech_architecture_diagram" ]),
      ("recommended_pilot", .OBJECT
        [ ("name", .STRING),
          ("why_this_pilot", .STRING),
          ("high_level_architecture", .ARRAY .STRING),
          ("measurable_success_metrics", .ARRAY .STRING) ]
        [ "name", "why_this_pilot", "high_level_architecture",
          "measurable_success_metrics" ]),
      ("implementation_phases", .ARRAY (.OBJECT
        [ ("phase_name", .STRING),
          ("focus", .STRING),
          ("expected_outcome", .STRING) ]
        [ "phase_name", "focus", "expected_outcome" ])),
      ("next_steps", .OBJECT
        [ ("demo_direction", .STRING),
          ("follow_up_focus", .STRING),
          ("validation_questions", .ARRAY .STRING) ]
        [ "demo_direction", "follow_up_focus", "validation_questions" ]),
      ("executive_summary", .STRING) ]
    [ "client_snapshot", "core_drivers", "top_recommendations",
      "matched_use_cases", "diagrams", "recommended_pilot",
      "implementation_phases", "next_steps", "executive_summary" ]

/-- Node of a TypeScript type expression, as used by the `AnalysisResult`
interface of `src/App.tsx` (every declared field of an interface is
non-optional there). -/
inductive TsType where
  | str : TsType
  | num : TsType
  | arrOf (t : TsType) : TsType
  | objOf (fields : List (String × TsType)) : TsType

/-- The `AnalysisResult` interface of `src/App.tsx`, field for field. -/
def AnalysisResult : TsType :=
  .objOf
    [ ("client_snapshot", .objOf
        [ ("organization_type", .str),
          ("technical_maturity_level", .str),
          ("top_priorities", .arrOf .str),
          ("constraints", .arrOf .str),
          ("risk_factors", .arrOf .str),
          ("detected_pains", .arrOf .str),
          ("detected_goals", .arrOf .str) ]),
      ("core_drivers", .arrOf .str),
      ("top_recommendations", .arrOf (.objOf
        [ ("solution_name", .str),
          ("architecture_layer", .str),
          ("business_value", .str),
          ("technical_reason", .str),
          ("transcript_reference", .str),
          ("confidence_score", .num),
          ("pricing_model", .str),
          ("why_it_fits", .str),
          ("complementary_solutions", .arrOf .str) ])),
      ("matched_use_cases", .arrOf (.objOf
        [ ("scenario_name", .str),
          ("format", .str),
          ("situation", .str),
          ("problem_or_task", .str),
          ("action", .str),
          ("result", .str),
          ("industry_relevance", .str) ])),
      ("recommended_pilot", .objOf
        [ ("name", .str),
          ("why_this_pilot", .str),
          ("high_level_architecture", .arrOf .str),
          ("measurable_success_metrics", .arrOf .str) ]),
      ("implementation_phases", .arrOf (.objOf
        [ ("phase_name", .str),
          ("focus", .str),
          ("expected_outcome", .str) ])),
      ("next_steps", .objOf
        [ ("demo_direction", .str),
          ("follow_up_focus", .str),
          ("validation_questions", .arrOf .str) ]),
      ("executive_summary", .str) ]

/-- Shape of a leaf field: text or number. -/
inductive LeafShape where
  | strLeaf : LeafShape
  | numLeaf : LeafShape
deriving DecidableEq, Repr

/-- Path step standing for "inside each element of the array"; no schema field
uses this name, so paths remain unambiguous. -/
def arrayStep : String := "[]"

mutual

/-- All required leaf fields of a schema node: the path of field names leading
to each leaf (with `arrayStep` marking a traversal into array elements, which
records cardinality) together with the leaf's shape.  Only properties listed
in an object's `required` list are kept. -/
def requiredSchemaLeaves : SchemaType → List (List String × LeafShape)
  | .STRING => [([], .strLeaf)]
  | .NUMBER => [([], .numLeaf)]
  | .ARRAY t => (requiredSchemaLeaves t).map (fun p => (arrayStep :: p.1, p.2))
  | .OBJECT props required => requiredSchemaLeavesProps props required

/-- Leaf fields contributed by an object's property list. -/
def requiredSchemaLeavesProps :
    List (String × SchemaType) → List String → List (List String × LeafShape)
  | [], _ => []
  | (n, t) :: rest, required =>
    (if required.contains n then
      (requiredSchemaLeaves t).map (fun p => (n :: p.1, p.2))
    else []) ++ requiredSchemaLeavesProps rest required

end

mutual

/-- All leaf fields of a TypeScript type expression, with paths as in
`requiredSchemaLeaves` (interface fields are all non-optional). -/
def tsTypeLeaves : TsType → List (List String × LeafShape)
  | .str => [([], .strLeaf)]
  | .num => [([], .numLeaf)]
  | .arrOf t => (tsTypeLeaves t).map (fun p => (arrayStep :: p.1, p.2))
  | .objOf fields => tsTypeLeavesFields fields

/-- Leaf fields contributed by an interface's field list. -/
def tsTypeLeavesFields : List (String × TsType) → List (List String × LeafShape)
  | [] => []
  | (n, t) :: rest =>
    (tsTypeLeaves t).map (fun p => (n :: p.1, p.2)) ++ tsTypeLeavesFields rest

end

/-- Part of the prompt template of `analyzeTranscript` before the interpolated
transcript. -/
def promptHead : String :=
  "You are a senior enterprise cloud solutions architect and executive technology strategist.\nAnalyze the following enterprise discovery call transcript and produce a concise, action-oriented cloud modernization strategy.\n\nTranscript:\n"

/-- Part of the prompt template of `analyzeTranscript` after the interpolated
transcript. -/
def promptTail : String :=
  "\n\nStrategic Requirements:\n1. Executive Precision: Provide a punchy executive summary focused on the \"Why\" and \"What now\".\n2. Business Outcomes: Clearly define the business value and expected outcomes for every recommendation.\n3. Immediate Next Steps: Provide concise, outcome-oriented immediate actions. Include specific, high-impact demo directions and targeted validation questions to confirm strategy fit.\n4. Architectural Layering: Map recommendations to Foundation, Identity, Network, Security, Storage, Compute, and AI layers.\n5. Use Case Alignment: Identify at least 5 distinct, high-impact use cases from the transcript. Format each using the STAR (Situation, Task, Action, Result) or SPAR framework as appropriate, but prioritize STAR for at least 2 of them. Each use case must include a specific \"industry_relevance\" scenario.\n6. Visual Strategy: Provide Mermaid.js code for a Use Case diagram and a System Technical Architecture diagram. The Use Case diagram must illustrate key actors (e.g., Client Stakeholders, Cloud Architect, Analysis System) and their interactions with the system. The System Technical Architecture diagram must visually represent the proposed cloud modernization strategy, showing the different architectural layers (Foundation, Identity, Network, Security, Storage, Compute, AI) and key AWS services recommended for each layer.\n7. Pricing & Pilot: Include specific, actionable AWS monthly pricing estimates for each recommendation. The pricing_model should specify typical AWS models (e.g., On-Demand, Reserved Instances, Spot Instances, or Serverless/Pay-as-you-go). The cost_breakdown must detail the calculation logic for all core services involved (e.g., \"EC2 t3.medium x 2: $60/mo\", \"RDS db.t3.small: $45/mo\", \"S3 1TB: $23/mo\"). Provide a measurable pilot project.\n\nOutput must be executive-ready: concise, high-impact, and devoid of technical fluff."

/-- The prompt text of `analyzeTranscript`: its backtick template literal with
the transcript interpolated between `promptHead` and `promptTail`. -/
def buildPrompt (transcript : String) : String :=
  promptHead ++ transcript ++ promptTail

/-- One outbound `ai.models.generateContent` request, carrying the fields
`analyzeTranscript` fills in: model identifier, the single user-role text
part, and the structured-output configuration. -/
structure GenRequest where
  model : String
  promptText : String
  responseMimeType : String
  responseSchema : SchemaType

/-- The request `analyzeTranscript` builds for a given transcript. -/
def mkGenRequest (transcript : String) : GenRequest :=
  { model := "gemini-3.1-pro-preview",
    promptText := buildPrompt transcript,
    responseMimeType := "application/json",
    responseSchema := ARCHITECT_SCHEMA }

/-- How the remote call can end: the promise rejects (transport, auth, …) or
resolves with a response whose `text` field may be absent. -/
inductive NetOutcome where
  | reject : NetOutcome
  | resolve (text : Option String) : NetOutcome

/-- The string a pair of braces forms: the fallback document of
`JSON.parse(response.text || "…")` in `analyzeTranscript`. -/
def emptyObjectLiteral : String := String.mk [openBraceChar, closeBraceChar]

/-- `response.text || "…empty object…"`: JavaScript `||` takes the fallback
when `text` is `undefined` or the empty string (both falsy). -/
def responseTextOrEmptyObject (text : Option String) : String :=
  match text with
  | none => emptyObjectLiteral
  | some t => if t = "" then emptyObjectLiteral else t

/-- `analyzeTranscript` of `src/services/geminiService.ts`, with the network
abstracted as an oracle from requests to outcomes.  Returns the operation's
result (`Except.error` for a rejected promise, from either the remote call or
a `JSON.parse` throw) together with the list of outbound requests issued. -/
def analyzeTranscript (net : GenRequest → NetOutcome) (transcript : String) :
    Except Unit Json × List GenRequest :=
  let req := mkGenRequest transcript
  match net req with
  | .reject => (.error (), [req])
  | .resolve text =>
    match jsonParse (responseTextOrEmptyObject text) with
    | some j => (.ok j, [req])
    | none => (.error (), [req])

/-- The four `useState` fields of the `App` component. -/
structure ShellState where
  transcript : String
  isAnalyzing : Bool
  result : Option Json
  error : Option String

/-- The initial `useState` values: `''`, `false`, `null`, `null`. -/
def initialShellState : ShellState :=
  { transcript := "", isAnalyzing := false, result := none, error := none }

/-- The one error string `handleAnalyze` stores on any failure. -/
def analysisFailedMessage : String :=
  "Failed to analyze transcript. Please check your API key and try again."

/-- Characters stripped by `String.prototype.trim` (the white-space and line
terminator code points relevant to pasted text). -/
def isJsWhitespace (c : Char) : Bool :=
  c = ' ' || c = '\t' || c = '\n' || c = '\r' ||
  c = Char.ofNat 11 || c = Char.ofNat 12 || c = Char.ofNat 160 ||
  c = Char.ofNat 0xfeff || c = Char.ofNat 0x2028 || c = Char.ofNat 0x2029

/-- Model of JavaScript `transcript.trim()`. -/
def jsTrim (s : String) : String :=
  String.mk (((s.data.dropWhile isJsWhitespace).reverse.dropWhile isJsWhitespace).reverse)

/-- One complete run of `handleAnalyze` in `src/App.tsx`: the falsy-`trim`
guard, then `setIsAnalyzing(true)`; `setError(null)`; the awaited call; on
fulfilment `setResult(data)`, on rejection `setError(…)`; finally
`setIsAnalyzing(false)`.  Returns the resulting state and the outbound
requests issued during the run. -/
def handleAnalyze (net : GenRequest → NetOutcome) (st : ShellState) :
    ShellState × List GenRequest :=
  if jsTrim st.transcript = "" then (st, [])
  else
    let started := { st with isAnalyzing := true, error := none }
    match analyzeTranscript net st.transcript with
    | (.ok data, calls) =>
      ({ started with result := some data, isAnalyzing := false }, calls)
    | (.error _, calls) =>
      ({ started with error := some analysisFailedMessage, isAnalyzing := false }, calls)

/-- Small-step transitions of the `App` component, exposing the in-flight
state between `handleAnalyze`'s synchronous prelude and the completion of the
awaited call.  The analyze button is disabled while `isAnalyzing` is set, so a
run only starts from a non-analyzing state; the textarea stays editable. -/
inductive ShellStep : ShellState → ShellState → Prop
  | input (st : ShellState) (s : String) :
      ShellStep st { st with transcript := s }
  | analyzeBlank (st : ShellState) :
      jsTrim st.transcript = "" →
      ShellStep st st
  | analyzeStart (st : ShellState) :
      jsTrim st.transcript ≠ "" →
      st.isAnalyzing = false →
      ShellStep st { st with isAnalyzing := true, error := none }
  | completeOk (st : ShellState) (data : Json) :
      st.isAnalyzing = true →
      ShellStep st { st with result := some data, isAnalyzing := false }
  | completeFail (st : ShellState) :
      st.isAnalyzing = true →
      ShellStep st { st with error := some analysisFailedMessage, isAnalyzing := false }

/-- States of the `App` component reachable from the initial state. -/
inductive ReachableState : ShellState → Prop
  | init : ReachableState initialShellState
  | step {st st' : ShellState} :
      ReachableState st → ShellStep st st' → ReachableState st'

/-- Model of `Number.prototype.toFixed(0)` on a rational: the integer closest
to the value, ties to the larger integer, with the sign split off first. -/
def toFixed0 (x : ℚ) : String :=
  if x < 0 then "-" ++ toString (Rat.floor (-x + 1/2))
  else toString (Rat.floor (x + 1/2))

/-- The confidence cell of a recommendation card in `src/App.tsx`:
`(rec.confidence_score * 100).toFixed(0)` followed by a percent sign. -/
def confidenceDisplay (confidence_score : ℚ) : String :=
  toFixed0 (confidence_score * 100) ++ "%"

/-- The icon nodes a recommendation card can show in its layer badge. -/
inductive LayerIcon where
  | layersIcon | lockIcon | networkIcon | shieldIcon
  | databaseIcon | cpuIcon | brainCircuitIcon | chevronRightIcon
deriving DecidableEq

/-- A value JavaScript property lookup on the `LAYER_ICONS` object literal can
produce: one of the icon element nodes stored in the literal, a function
inherited from `Object.prototype` (such as `constructor` or `toString`), the
prototype object itself (what the inherited `__proto__` accessor returns), or
`undefined`. -/
inductive JsValue where
  | iconNode (i : LayerIcon) : JsValue
  | protoFunction (name : String) : JsValue
  | protoObject : JsValue
  | undefined : JsValue
deriving DecidableEq

/-- The function-valued member names every object literal inherits from
`Object.prototype`. -/
def objectPrototypeFunctionMembers : List String :=
  ["constructor", "hasOwnProperty", "isPrototypeOf", "propertyIsEnumerable",
   "toLocaleString", "toString", "valueOf", "__defineGetter__",
   "__defineSetter__", "__lookupGetter__", "__lookupSetter__"]

/-- All member names an object literal inherits from `Object.prototype`: the
function-valued ones and the `__proto__` accessor. -/
def objectPrototypeMembers : List String :=
  objectPrototypeFunctionMembers ++ ["__proto__"]

/-- The `LAYER_ICONS` record of `src/App.tsx`, as JavaScript property lookup:
an own property (one of the seven literal keys) is found first; failing that,
the lookup continues on the prototype chain, where `Object.prototype` supplies
the `__proto__` accessor (yielding an object) and its function-valued members;
only names found nowhere yield `undefined`. -/
def LAYER_ICONS (key : String) : JsValue :=
  if key = "Foundation" then .iconNode .layersIcon
  else if key = "Identity" then .iconNode .lockIcon
  else if key = "Network" then .iconNode .networkIcon
  else if key = "Security" then .iconNode .shieldIcon
  else if key = "Storage" then .iconNode .databaseIcon
  else if key = "Compute" then .iconNode .cpuIcon
  else if key = "AI" then .iconNode .brainCircuitIcon
  else if key = "__proto__" then .protoObject
  else if key ∈ objectPrototypeFunctionMembers then .protoFunction key
  else .undefined

/-- The seven keys of the `LAYER_ICONS` literal itself. -/
def layerIconKeys : List String :=
  ["Foundation", "Identity", "Network", "Security", "Storage", "Compute", "AI"]

/-- JavaScript truthiness of a looked-up value: functions and objects are
truthy; only `undefined` among these values is falsy. -/
def jsTruthy : JsValue → Bool
  | .undefined => false
  | _ => true

/-- The value placed in a recommendation card's icon slot:
`LAYER_ICONS[rec.architecture_layer] || <ChevronRight … />`, where `||` keeps
the left operand whenever it is truthy. -/
def recommendationIcon (architecture_layer : String) : JsValue :=
  let v := LAYER_ICONS architecture_layer
  if jsTruthy v then v else .iconNode .chevronRightIcon

/-- Whether the icon slot received an actual icon element.  An inherited
function or the prototype object is not an icon node — React rejects a plain
object as a child outright, so rendering is not total over such values. -/
def isIconNode : JsValue → Bool
  | .iconNode _ => true
  | _ => false

/-- Does a JSON value carry the given leaf at the given path?  Descending an
`arrayStep` requires every element of a JSON array to carry the remaining
path; at the end the leaf's shape must match. -/
def jsonHasLeaf : List String → Json → LeafShape → Bool
  | [], j, shape =>
    (match shape, j with
     | .strLeaf, .str _ => true
     | .numLeaf, .num _ => true
     | _, _ => false)
  | step :: rest, j, shape =>
    if step = arrayStep then
      match j with
      | .arr xs => xs.all (fun x => jsonHasLeaf rest x shape)
      | _ => false
    else
      match j with
      | .obj fs =>
        match lookupField step fs with
        | some v => jsonHasLeaf rest v shape
        | none => false
      | _ => false

/-- Modelled from the spec: "every field the schema marks required is present
with the declared type" — the fully-populated-result guarantee §4.3 states for
a successful `analyzeTranscript`, phrased against `ARCHITECT_SCHEMA`.  The
source performs no such validation; this predicate exists to compare the
claimed guarantee with what the code returns. -/
def specFullyPopulated (j : Json) : Bool :=
  (requiredSchemaLeaves ARCHITECT_SCHEMA).all (fun p => jsonHasLeaf p.1 j p.2)

/-- `Rat.floor` agrees with the floor of the `FloorRing` instance. -/
theorem ratFloor_eq_intFloor (x : ℚ) : Rat.floor x = ⌊x⌋ :=
  (Rat.floor_def' x).trans Rat.floor_def.symm

/-- Claim C1 is false as stated: the schema requires the leaf field
`diagrams.use_case_diagram`, but the `AnalysisResult` interface has no
`diagrams` field at all, so the schema-to-interface direction of the
correspondence fails at this concrete leaf. -/
theorem C1_counterexample :
    (["diagrams", "use_case_diagram"], LeafShape.strLeaf) ∈
        requiredSchemaLeaves ARCHITECT_SCHEMA ∧
    (["diagrams", "use_case_diagram"], LeafShape.strLeaf) ∉
        tsTypeLeaves AnalysisResult := by
  decide

/-- Claim C1, amended: every leaf field of the `AnalysisResult` interface is a
required leaf field of `ARCHITECT_SCHEMA` with the same name, nesting path and
shape, but not vice versa — the schema additionally requires exactly four
leaves the interface lacks: `top_recommendations[].estimated_monthly_cost`,
`top_recommendations[].cost_breakdown[]`, `diagrams.use_case_diagram` and
`diagrams.tech_architecture_diagram`. -/
theorem C1_amended_correspondence :
    ((tsTypeLeaves AnalysisResult).all
        (fun p => (requiredSchemaLeaves ARCHITECT_SCHEMA).contains p)) = true ∧
    (requiredSchemaLeaves ARCHITECT_SCHEMA).filter
        (fun p => !((tsTypeLeaves AnalysisResult).contains p)) =
      [ (["top_recommendations", "[]", "estimated_monthly_cost"], LeafShape.strLeaf),
        (["top_recommendations", "[]", "cost_breakdown", "[]"], LeafShape.strLeaf),
        (["diagrams", "use_case_diagram"], LeafShape.strLeaf),
        (["diagrams", "tech_architecture_diagram"], LeafShape.strLeaf) ] := by
  constructor
  · decide
  · decide

/-- Claim C2 is false as stated: a run in which the remote call resolves with
the response text of an empty JSON object completes successfully, yet the
returned value is the empty object, which is missing every schema-required
field. -/
theorem C2_counterexample :
    (analyzeTranscript (fun _ => .resolve (some emptyObjectLiteral)) "hello").1 =
      .ok (Json.obj []) ∧
    specFullyPopulated (Json.obj []) = false := by
  exact ⟨rfl, by decide⟩

/-- Claim C2, amended: on success `analyzeTranscript` returns exactly the
`JSON.parse` of the response text (with the empty-object fallback when the
text is absent or empty), with no validation against the schema: the result is
fully populated only if the model's response is. -/
theorem C2_amended_passthrough :
    ∀ (net : GenRequest → NetOutcome) (t : String) (j : Json),
      (analyzeTranscript net t).1 = .ok j →
      ∃ text, net (mkGenRequest t) = .resolve text ∧
        jsonParse (responseTextOrEmptyObject text) = some j := by
  intro net t j h
  rcases hn : net (mkGenRequest t) with _ | text
  · simp [analyzeTranscript, hn] at h
  · rcases hp : jsonParse (responseTextOrEmptyObject text) with _ | j'
    · simp [analyzeTranscript, hn, hp] at h
    · simp [analyzeTranscript, hn, hp] at h
      exact ⟨text, rfl, by simp [hp, h]⟩

/-- Witness for C2's amended theorem at a concrete network oracle. -/
theorem C2_amended_passthrough_witness :
    ∃ text,
      (fun _ => NetOutcome.resolve (some emptyObjectLiteral) :
          GenRequest → NetOutcome) (mkGenRequest "hi") = NetOutcome.resolve text ∧
      jsonParse (responseTextOrEmptyObject text) = some (Json.obj []) :=
  C2_amended_passthrough (fun _ => .resolve (some emptyObjectLiteral)) "hi"
    (Json.obj []) rfl

/-- Claim C3: for an empty or whitespace-only transcript, a run of
`handleAnalyze` issues no outbound request and leaves the state — stored
result, stored error and the in-progress flag included — unchanged. -/
theorem C3_empty_input_noop :
    ∀ (net : GenRequest → NetOutcome) (st : ShellState),
      jsTrim st.transcript = "" →
      handleAnalyze net st = (st, []) := by
  intro net st h
  simp [handleAnalyze, h]

/-- Witness for C3 at a whitespace-only transcript. -/
theorem C3_empty_input_noop_witness :
    handleAnalyze (fun _ => .reject)
        { transcript := " \t\n", isAnalyzing := false,
          result := some (Json.obj []), error := none } =
      ({ transcript := " \t\n", isAnalyzing := false,
         result := some (Json.obj []), error := none }, []) :=
  C3_empty_input_noop (fun _ => .reject) _ (by decide)

/-- Claim C4: on a non-blank transcript whose call fails (for any reason the
model of the call can fail — rejection of the remote promise or a parse
throw), the completed run has the in-progress flag cleared, the error set to
the one fixed non-empty message, and the previously stored result unchanged. -/
theorem C4_failure_path :
    ∀ (net : GenRequest → NetOutcome) (st : ShellState),
      jsTrim st.transcript ≠ "" →
      (analyzeTranscript net st.transcript).1 = .error () →
      (handleAnalyze net st).1.isAnalyzing = false ∧
      (handleAnalyze net st).1.error = some analysisFailedMessage ∧
      analysisFailedMessage ≠ "" ∧
      (handleAnalyze net st).1.result = st.result := by
  intro net st h1 h2
  rcases hcall : analyzeTranscript net st.transcript with ⟨res, calls⟩
  rw [hcall] at h2
  simp only at h2
  subst h2
  refine ⟨?_, ?_, by decide, ?_⟩ <;> simp [handleAnalyze, h1, hcall]

/-- Witness for C4: a rejecting network oracle and a state holding a prior
result. -/
theorem C4_failure_path_witness :
    (handleAnalyze (fun _ => .reject)
        { transcript := "t", isAnalyzing := false,
          result := some (Json.obj []), error := none }).1.isAnalyzing = false ∧
    (handleAnalyze (fun _ => .reject)
        { transcript := "t", isAnalyzing := false,
          result := some (Json.obj []), error := none }).1.error =
      some analysisFailedMessage ∧
    analysisFailedMessage ≠ "" ∧
    (handleAnalyze (fun _ => .reject)
        { transcript := "t", isAnalyzing := false,
          result := some (Json.obj []), error := none }).1.result =
      some (Json.obj []) :=
  C4_failure_path (fun _ => .reject) _ (by decide) rfl

/-- Claim C5: the renderer shows the confidence score multiplied by 100,
rounded to zero decimal places, followed by a percent sign: `0.83` renders as
`83%`, and the out-of-range `1.4` renders as `140%`; in general the display is
the unclamped `toFixed(0)` of the product. -/
theorem C5_confidence_display :
    confidenceDisplay (83/100) = "83%" ∧
    confidenceDisplay (14/10) = "140%" ∧
    ∀ q : ℚ, confidenceDisplay q = toFixed0 (q * 100) ++ "%" := by
  refine ⟨?_, ?_, fun q => rfl⟩
  · have hv : (83/100 * 100 : ℚ) = 83 := by norm_num
    have hf : ⌊(83 : ℚ) + 1/2⌋ = (83 : ℤ) := by
      rw [Int.floor_eq_iff]
      constructor <;> norm_num
    rw [confidenceDisplay, hv, toFixed0, if_neg (by norm_num : ¬ (83:ℚ) < 0),
      ratFloor_eq_intFloor, hf]
    rfl
  · have hv : (14/10 * 100 : ℚ) = 140 := by norm_num
    have hf : ⌊(140 : ℚ) + 1/2⌋ = (140 : ℤ) := by
      rw [Int.floor_eq_iff]
      constructor <;> norm_num
    rw [confidenceDisplay, hv, toFixed0, if_neg (by norm_num : ¬ (140:ℚ) < 0),
      ratFloor_eq_intFloor, hf]
    rfl

/-- Claim C6 is false as stated: after a successful analysis followed by a
failed one, the component reaches a state in which the stored result and the
stored error are both non-null. -/
theorem C6_counterexample :
    ReachableState
      { transcript := "t", isAnalyzing := false,
        result := some (Json.obj []), error := some analysisFailedMessage } ∧
    ¬({ transcript := "t", isAnalyzing := false,
        result := some (Json.obj []),
        error := some analysisFailedMessage : ShellState }.result = none ∨
      { transcript := "t", isAnalyzing := false,
        result := some (Json.obj []),
        error := some analysisFailedMessage : ShellState }.error = none) := by
  constructor
  · have h1 : ReachableState initialShellState := .init
    have h2 := ReachableState.step h1 (ShellStep.input initialShellState "t")
    have h3 := ReachableState.step h2
      (ShellStep.analyzeStart _ (by decide) rfl)
    have h4 := ReachableState.step h3
      (ShellStep.completeOk _ (Json.obj []) rfl)
    have h5 := ReachableState.step h4
      (ShellStep.analyzeStart _ (by decide) rfl)
    exact ReachableState.step h5 (ShellStep.completeFail _ rfl)
  · simp

/-- Claim C6, amended: in every reachable state the error, when present, is
the fixed failure message and the in-progress flag is clear, and the error is
always null while an analysis is in flight; the mutual exclusion of result and
error does not hold, since a failure retains a previously stored result. -/
theorem C6_amended_error_invariant :
    ∀ st : ShellState, ReachableState st →
      (st.isAnalyzing = true → st.error = none) ∧
      (∀ e, st.error = some e → e = analysisFailedMessage ∧ st.isAnalyzing = false) := by
  intro st h
  induction h with
  | init => simp [initialShellState]
  | step _ hs ih =>
    cases hs with
    | input s => exact ih
    | analyzeBlank h1 => exact ih
    | analyzeStart h1 h2 => simp
    | completeOk data h1 =>
      refine ⟨by simp, ?_⟩
      intro e he
      have hnone := ih.1 h1
      simp only [hnone] at he
      exact Option.noConfusion he
    | completeFail h1 =>
      refine ⟨by simp, ?_⟩
      intro e he
      simp only [Option.some.injEq] at he
      exact ⟨he.symm, rfl⟩

/-- Witness for C6's amended invariant at the initial state. -/
theorem C6_amended_error_invariant_witness :
    (initialShellState.isAnalyzing = true → initialShellState.error = none) ∧
    (∀ e, initialShellState.error = some e →
      e = analysisFailedMessage ∧ initialShellState.isAnalyzing = false) :=
  C6_amended_error_invariant initialShellState ReachableState.init

/-- Claim C7: every invocation of `analyzeTranscript` issues exactly one
outbound request — the one built from its transcript — whatever the network
does: no retry on rejection, and no suppression or caching, since the issued
list does not depend on any earlier call. -/
theorem C7_single_call :
    ∀ (net : GenRequest → NetOutcome) (t : String),
      (analyzeTranscript net t).2 = [mkGenRequest t] ∧
      (analyzeTranscript net t).2.length = 1 := by
  intro net t
  rcases hn : net (mkGenRequest t) with _ | text
  · simp [analyzeTranscript, hn]
  · rcases hp : jsonParse (responseTextOrEmptyObject text) with _ | j <;>
      simp [analyzeTranscript, hn, hp]

/-- Claim C8: the prompt sent to the model is a pure function of the
transcript — the fixed template head, the transcript verbatim, the fixed
template tail — so the transcript appears untruncated and unescaped as a
contiguous substring of the prompt. -/
theorem C8_prompt_verbatim :
    ∀ t : String,
      (mkGenRequest t).promptText = promptHead ++ t ++ promptTail ∧
      ∃ pre post, (mkGenRequest t).promptText = pre ++ t ++ post :=
  fun t => ⟨rfl, promptHead, promptTail, rfl⟩

/-- Claim C9 is false as stated: `"constructor"` is not one of the seven
enumerated keys, yet the lookup hits the truthy inherited
`Object.prototype.constructor`, so the `||` fallback to the generic chevron is
not taken; and for `"__proto__"` the icon slot receives the prototype object —
not an icon node, and a plain object is not a valid React child — so rendering
is not total over arbitrary `architecture_layer` strings. -/
theorem C9_counterexample :
    "constructor" ∉ layerIconKeys ∧
    recommendationIcon "constructor" ≠ JsValue.iconNode LayerIcon.chevronRightIcon ∧
    "__proto__" ∉ layerIconKeys ∧
    isIconNode (recommendationIcon "__proto__") = false := by
  decide

/-- Claim C9, amended: the icon slot falls back to the generic chevron exactly
when `architecture_layer` is neither one of the seven enumerated keys nor a
member name inherited from `Object.prototype`; the slot receives an icon
element exactly off the inherited member names (for those names the truthy
inherited value defeats the `||` fallback, and for `__proto__` the slot holds
a plain object React throws on); and a dedicated non-chevron icon is shown
exactly on the seven keys. -/
theorem C9_amended_icon_fallback :
    ∀ s : String,
      (recommendationIcon s = JsValue.iconNode LayerIcon.chevronRightIcon ↔
        s ∉ layerIconKeys ∧ s ∉ objectPrototypeMembers) ∧
      (isIconNode (recommendationIcon s) = true ↔ s ∉ objectPrototypeMembers) ∧
      ((∃ i, i ≠ LayerIcon.chevronRightIcon ∧
          recommendationIcon s = JsValue.iconNode i) ↔ s ∈ layerIconKeys) := by
  intro s
  unfold recommendationIcon LAYER_ICONS layerIconKeys
  split_ifs with h1 h2 h3 h4 h5 h6 h7 h8 h9 <;>
    simp_all [jsTruthy, isIconNode, objectPrototypeMembers,
      objectPrototypeFunctionMembers]

/-- Claim C10: when the remote call resolves with an absent, empty or
empty-object response text, `analyzeTranscript` resolves successfully with the
empty object, `handleAnalyze` stores it as the result, and that stored result
is missing every schema-required field. -/
theorem C10_empty_response_success :
    (analyzeTranscript (fun _ => .resolve none) "call").1 = .ok (Json.obj []) ∧
    (analyzeTranscript (fun _ => .resolve (some "")) "call").1 = .ok (Json.obj []) ∧
    (analyzeTranscript (fun _ => .resolve (some emptyObjectLiteral)) "call").1 =
      .ok (Json.obj []) ∧
    (handleAnalyze (fun _ => .resolve none)
        { transcript := "call", isAnalyzing := false,
          result := none, error := none }).1.result = some (Json.obj []) ∧
    specFullyPopulated (Json.obj []) = false :=
  ⟨rfl, rfl, rfl, rfl, by decide⟩

end CloudArticular
